import Mathlib

/-!
Verification of the stream quality scheduling and scoring engine of the
dispatcharr-stream-manager repository.  The definitions below are a shallow
embedding of the Python source (src/backend/stream_checker_service.py and
src/backend/dispatcharr-stream-sorter.py): Python floats are modelled as
exact rationals, dictionaries with optional keys as structures of Option
fields, iso-format timestamps as an explicit Gregorian date-time structure,
and the thread-safe mutable classes as explicit state-passing functions.
-/

/-! ## String helpers mirroring the Python operations used by the scorer.
Strings are handled through their lists of character codes, on which every
operation is plain structural recursion. -/

/-- The character codes of a string. -/
def codes (s : String) : List ℕ := s.data.map Char.toNat

/-- The character codes of `s.lower()` (ASCII case folding, which covers
every codec / resolution / status string the probe produces). -/
def lowerCodes (s : String) : List ℕ :=
  s.data.map (fun c => if 65 ≤ c.toNat ∧ c.toNat ≤ 90 then c.toNat + 32 else c.toNat)

def isPrefixCodes : List ℕ → List ℕ → Bool
  | [], _ => true
  | _ :: _, [] => false
  | a :: as, b :: bs => a == b && isPrefixCodes as bs

/-- Python `needle in haystack` (substring containment). -/
def isInfixCodes (needle : List ℕ) : List ℕ → Bool
  | [] => needle.isEmpty
  | b :: bs => isPrefixCodes needle (b :: bs) || isInfixCodes needle bs

/-- Python `s.split(sep)` for a one-character separator. -/
def splitOnCode (sep : ℕ) : List ℕ → List (List ℕ)
  | [] => [[]]
  | c :: rest =>
    let r := splitOnCode sep rest
    if c = sep then [] :: r
    else
      match r with
      | [] => [[c]]
      | h :: t => (c :: h) :: t

def digitOfCode (n : ℕ) : Option ℕ :=
  if 48 ≤ n ∧ n ≤ 57 then some (n - 48) else none

def parseNatCodes (l : List ℕ) : Option ℕ :=
  match l with
  | [] => none
  | _ => l.foldl (fun acc c =>
      match acc, digitOfCode c with
      | some n, some d => some (n * 10 + d)
      | _, _ => none) (some 0)

/-- Python `int(s)` restricted to the plain `[-]digits` forms that occur in
resolution strings (Python additionally tolerates surrounding whitespace
and a leading `+`, which never arrive from the probe output). -/
def parseIntCodes (l : List ℕ) : Option Int :=
  match l with
  | 45 :: rest => (parseNatCodes rest).map (fun n => -(n : Int))
  | _ => (parseNatCodes l).map (fun n => (n : Int))

/-- Python `s.strip()` (the ASCII whitespace codes). -/
def isSpaceCode (n : ℕ) : Bool := n == 32 || (9 ≤ n && n ≤ 13)

def trimCodes (l : List ℕ) : List ℕ :=
  ((l.dropWhile isSpaceCode).reverse.dropWhile isSpaceCode).reverse

/-- The resolution parse performed inside `_calculate_stream_score`:
`'x' in str(resolution)` guards a `width, height = map(int, resolution.split('x'))`
whose `ValueError` is swallowed (leaving the component at 0).  Code 120
is the character `x`. -/
def parseResolution (s : String) : Option (Int × Int) :=
  let cs := codes s
  if cs.contains 120 then
    match splitOnCode 120 cs with
    | [w, h] =>
      match parseIntCodes w, parseIntCodes h with
      | some wi, some hi => some (wi, hi)
      | _, _ => none
    | _ => none
  else none

/-! ## The service scorer (`StreamCheckerService._calculate_stream_score`) -/

/-- The fields of the analyzed-stream dictionary read by
`_calculate_stream_score`.  `none` in a numeric field models a non-numeric
value (the string "N/A" or JSON null), on which the code's
`isinstance(x, (int, float))` checks fail. -/
structure StreamData where
  bitrate_kbps : Option ℚ
  resolution : String
  fps : Option ℚ
  video_codec : String
  status : String
  err_decode : Bool
  err_discontinuity : Bool
  err_timeout : Bool
  interlaced_status : String
  frames_dropped : Option ℚ
  frames_decoded : Option ℚ
deriving DecidableEq, Repr

/-- The configuration values read by `_calculate_stream_score`
(`scoring.weights.*`, `scoring.prefer_h265`, `scoring.penalize_interlaced`,
`scoring.penalize_dropped_frames`). -/
structure ScoreConfig where
  w_bitrate : ℚ
  w_resolution : ℚ
  w_fps : ℚ
  w_codec : ℚ
  w_errors : ℚ
  prefer_h265 : Bool
  penalize_interlaced : Bool
  penalize_dropped_frames : Bool
deriving DecidableEq, Repr

/-- `DEFAULT_CONFIG['scoring']`: weights 0.30/0.25/0.15/0.10/0.20, prefer
h265, penalize interlacing and dropped frames. -/
def defaultScoreConfig : ScoreConfig :=
  { w_bitrate := 3/10
    w_resolution := 1/4
    w_fps := 3/20
    w_codec := 1/10
    w_errors := 1/5
    prefer_h265 := true
    penalize_interlaced := true
    penalize_dropped_frames := true }

/-- `isinstance(bitrate, (int, float)) and bitrate > 0`. -/
def bitrateUsable (b : Option ℚ) : Bool :=
  match b with
  | some q => decide (0 < q)
  | none => false

/-- Bitrate term: `min(bitrate / 8000, 1.0)` when usable, otherwise the
`score +=` is skipped (contribution 0). -/
def bitrate_component (b : Option ℚ) : ℚ :=
  match b with
  | some q => if 0 < q then min (q / 8000) 1 else 0
  | none => 0

/-- Resolution term: step function on the parsed vertical resolution;
0 when the string has no 'x' or fails to parse. -/
def resolution_component (resolution : String) : ℚ :=
  match parseResolution resolution with
  | some (_, h) =>
    if 1080 ≤ h then 1
    else if 720 ≤ h then 7/10
    else if 576 ≤ h then 1/2
    else 3/10
  | none => 0

/-- FPS term: `min(fps / 60, 1.0)` when fps is a number greater than 0. -/
def fps_component (f : Option ℚ) : ℚ :=
  match f with
  | some q => if 0 < q then min (q / 60) 1 else 0
  | none => 0

/-- Codec term on `video_codec.lower()`: empty string is falsy (0);
h265/hevc and h264/avc families split 1.0 / 0.8 by `prefer_h265`; any other
codec except the literal "n/a" scores 0.5. -/
def codec_component (h265preferred : Bool) (codec : String) : ℚ :=
  let c := lowerCodes codec
  if c = [] then 0
  else if isInfixCodes (codes "h265") c || isInfixCodes (codes "hevc") c then
    (if h265preferred then 1 else 4/5)
  else if isInfixCodes (codes "h264") c || isInfixCodes (codes "avc") c then
    (if h265preferred then 4/5 else 1)
  else if c ≠ codes "n/a" then 1/2
  else 0

/-- Error term: starts at 1.0, subtracts the fixed penalties and the capped
dropped-frame penalty, floored at 0. -/
def error_component (cfg : ScoreConfig) (d : StreamData) : ℚ :=
  let e1 : ℚ := if d.status ≠ "OK" then 1 - 1/2 else 1
  let e2 := if d.err_decode then e1 - 1/5 else e1
  let e3 := if d.err_discontinuity then e2 - 1/5 else e2
  let e4 := if d.err_timeout then e3 - 3/10 else e3
  let e5 :=
    if cfg.penalize_interlaced && isInfixCodes (codes "interlaced") (lowerCodes d.interlaced_status) then
      e4 - 1/10
    else e4
  let e6 :=
    if cfg.penalize_dropped_frames then
      match d.frames_dropped, d.frames_decoded with
      | some dr, some de =>
        if 0 < de then
          (if 1/100 < dr / de then e5 - min (dr / de * 5) (3/10) else e5)
        else e5
      | _, _ => e5
    else e5
  max e6 0

/-- Round-half-to-even to an integer, the tie-breaking rule of Python's
`round` (the binary-float representation noise of CPython is not modelled:
arithmetic here is exact). -/
def roundHalfToEven (q : ℚ) : ℤ :=
  if q - ⌊q⌋ < 1/2 then ⌊q⌋
  else if 1/2 < q - ⌊q⌋ then ⌊q⌋ + 1
  else if ⌊q⌋ % 2 = 0 then ⌊q⌋ else ⌊q⌋ + 1

/-- `round(score, 2)`. -/
def round2 (q : ℚ) : ℚ :=
  (roundHalfToEven (q * 100) : ℚ) / 100

/-- `StreamCheckerService._calculate_stream_score`: the weighted sum of the
five components, rounded to two decimals. -/
def calculate_stream_score (cfg : ScoreConfig) (d : StreamData) : ℚ :=
  round2 (bitrate_component d.bitrate_kbps * cfg.w_bitrate
    + resolution_component d.resolution * cfg.w_resolution
    + fps_component d.fps * cfg.w_fps
    + codec_component cfg.prefer_h265 d.video_codec * cfg.w_codec
    + error_component cfg d * cfg.w_errors)

/-! ## The sorter scorer (`score_streams` in dispatcharr-stream-sorter.py),
restricted to one aggregated row of the summary frame. -/

/-- One row of the aggregated summary in `score_streams`.  `none` models a
pandas NaN produced by `to_numeric(..., errors='coerce')` or by averaging
no data. -/
structure SorterRow where
  avg_bitrate_kbps : Option ℚ
  avg_frames_decoded : Option ℚ
  avg_frames_dropped : Option ℚ
  max_bitrate_for_channel : Option ℚ
  resolution : String
  fps : Option ℚ
  err_decode : ℚ
  err_discontinuity : ℚ
  err_timeout : ℚ
deriving DecidableEq, Repr

/-- `RESOLUTION_SCORES` lookup on the stripped resolution string, with
`.fillna(0)` for every string not in the map. -/
def sorterResolutionScore (s : String) : ℚ :=
  let t := trimCodes (codes s)
  if t = codes "3840x2160" then 100
  else if t = codes "1920x1080" then 80
  else if t = codes "1280x720" then 50
  else if t = codes "960x540" then 20
  else 0

/-- FPS bonus: `fps_bonus_points` when the coerced fps is at least 50
(NaN coerces to 0 via `.fillna(0)`). -/
def sorterFpsBonus (pts : ℚ) (f : Option ℚ) : ℚ :=
  if 50 ≤ f.getD 0 then pts else 0

/-- `avg_bitrate_kbps / (max_bitrate_for_channel * 0.01)` with `.fillna(0)`:
NaN inputs and the 0/0 case give 0.  (A zero channel maximum with a positive
average cannot arise, the maximum being taken over the same group.) -/
def sorterBitrateScore (avg maxb : Option ℚ) : ℚ :=
  match avg, maxb with
  | some a, some m => if m = 0 then 0 else a / (m * (1/100))
  | _, _ => 0

/-- `avg_frames_dropped / avg_frames_decoded * 100` with `.fillna(0)`:
NaN inputs and the 0/0 case give 0.  (Dropped frames never exceed decoded
frames in the probe output, so a zero denominator with a positive numerator
cannot arise.) -/
def sorterDroppedPct (dropped decoded : Option ℚ) : ℚ :=
  match dropped, decoded with
  | some dr, some de => if de = 0 then 0 else dr / de * 100
  | _, _ => 0

/-- The `score` column of `score_streams`: bitrate + resolution + fps bonus
minus the dropped-frame and critical-error penalties, overridden by the
sentinel −1 on every row whose averaged bitrate is NaN. -/
def sorter_score (fps_bonus_points : ℚ) (r : SorterRow) : ℚ :=
  if r.avg_bitrate_kbps.isNone then -1
  else
    sorterBitrateScore r.avg_bitrate_kbps r.max_bitrate_for_channel
      + sorterResolutionScore r.resolution
      + sorterFpsBonus fps_bonus_points r.fps
      - sorterDroppedPct r.avg_frames_dropped r.avg_frames_decoded
      - (r.err_decode + r.err_discontinuity + r.err_timeout) * 25

/-! ## Date-times.  `datetime.now().isoformat()` timestamps are modelled at
second resolution by an explicit proleptic-Gregorian structure; `.date()`
comparisons, `replace(...)`, subtraction and ordering are defined exactly as
the `datetime` library computes them. -/

structure PyDateTime where
  year : ℕ
  month : ℕ
  day : ℕ
  hour : ℕ
  minute : ℕ
  second : ℕ
deriving DecidableEq, Repr

def isLeapYear (y : ℕ) : Bool :=
  (y % 4 == 0 && y % 100 != 0) || y % 400 == 0

def daysInMonth (y m : ℕ) : ℕ :=
  if m = 2 then (if isLeapYear y then 29 else 28)
  else if m = 4 ∨ m = 6 ∨ m = 9 ∨ m = 11 then 30 else 31

def daysBeforeMonth (y m : ℕ) : ℕ :=
  ((List.range (m - 1)).map (fun i => daysInMonth y (i + 1))).sum

/-- `datetime.toordinal()`: day 1 is 0001-01-01. -/
def toOrdinalDay (dt : PyDateTime) : ℕ :=
  365 * (dt.year - 1) + (dt.year - 1) / 4 - (dt.year - 1) / 100 + (dt.year - 1) / 400
    + daysBeforeMonth dt.year dt.month + dt.day

def dtToSeconds (dt : PyDateTime) : ℕ :=
  toOrdinalDay dt * 86400 + dt.hour * 3600 + dt.minute * 60 + dt.second

/-- `(a - b).total_seconds()`. -/
def diffSeconds (a b : PyDateTime) : ℤ :=
  (dtToSeconds a : ℤ) - (dtToSeconds b : ℤ)

/-- `a.date() == b.date()`. -/
def sameDate (a b : PyDateTime) : Bool :=
  a.year == b.year && a.month == b.month && a.day == b.day

/-- `now.replace(hour=h, minute=m, second=0, microsecond=0)`. -/
def dtReplaceTime (dt : PyDateTime) (h m : ℕ) : PyDateTime :=
  { dt with hour := h, minute := m, second := 0 }

/-! ## `ChannelUpdateTracker`.  The persisted JSON mapping is modelled as an
insertion-ordered association list of per-channel records whose keys may be
absent (`none`); persistence I/O is invisible to the tracked state. -/

/-- One per-channel record of `channel_updates.json`.  Every field is
optional because the Python code stores plain dicts whose key sets differ
between writers; `stream_count` is doubly optional because the key can be
present with a JSON null value. -/
structure ChannelRecord where
  last_update : Option PyDateTime := none
  needs_check : Option Bool := none
  last_check : Option PyDateTime := none
  stream_count : Option (Option ℕ) := none
  checked_stream_ids : Option (List ℕ) := none
  force_check : Option Bool := none
  queued_at : Option PyDateTime := none
deriving DecidableEq, Repr

structure TrackerState where
  channels : List (ℕ × ChannelRecord)
  last_global_check : Option PyDateTime
deriving DecidableEq, Repr

/-- Dict write `d[k] = r`: replace in place, or append a new key. -/
def setRecord : List (ℕ × ChannelRecord) → ℕ → ChannelRecord → List (ℕ × ChannelRecord)
  | [], k, r => [(k, r)]
  | (k', r') :: rest, k, r =>
    if k' = k then (k, r) :: rest else (k', r') :: setRecord rest k r

/-- Dict read `d.get(k)`. -/
def getRecord : List (ℕ × ChannelRecord) → ℕ → Option ChannelRecord
  | [], _ => none
  | (k', r) :: rest, k => if k' = k then some r else getRecord rest k

def lookupCount : List (ℕ × ℕ) → ℕ → Option ℕ
  | [], _ => none
  | (k', c) :: rest, k => if k' = k then some c else lookupCount rest k

/-- The fresh record both `mark_channel_updated` and `mark_channels_updated`
store for a channel: only the four keys `last_update`, `needs_check`,
`stream_count`, `checked_stream_ids` are written, the last preserved from
the previous record (empty when the channel was untracked). -/
def updatedRecord (old : Option ChannelRecord) (timestamp : PyDateTime)
    (stream_count : Option ℕ) : ChannelRecord :=
  { last_update := some timestamp
    needs_check := some true
    stream_count := some stream_count
    checked_stream_ids := some ((old.bind (fun r => r.checked_stream_ids)).getD []) }

/-- `ChannelUpdateTracker.mark_channel_updated`. -/
def mark_channel_updated (t : TrackerState) (channel_id : ℕ) (timestamp : PyDateTime)
    (stream_count : Option ℕ) : TrackerState :=
  let r := updatedRecord (getRecord t.channels channel_id) timestamp stream_count
  { t with channels := setRecord t.channels channel_id r }

/-- `ChannelUpdateTracker.mark_channels_updated`: the same replacement for
each listed channel, with the per-channel count looked up in the
`stream_counts` dict. -/
def mark_channels_updated (t : TrackerState) (channel_ids : List ℕ)
    (timestamp : PyDateTime) (stream_counts : List (ℕ × ℕ)) : TrackerState :=
  channel_ids.foldl
    (fun acc cid =>
      let r := updatedRecord (getRecord acc.channels cid) timestamp (lookupCount stream_counts cid)
      { acc with channels := setRecord acc.channels cid r })
    t

/-- `if max_channels and len(channels) >= max_channels` — a `None` (and a
zero) cap is falsy. -/
def capHit (max_channels : Option ℕ) (n : ℕ) : Bool :=
  match max_channels with
  | none => false
  | some m => decide (0 < m) && decide (m ≤ n)

/-- The loop body of `get_and_clear_channels_needing_check`: walk the
records in insertion order, collect the ids whose `needs_check` is truthy,
clear the flag and stamp `queued_at`, stopping after the cap check that
follows each append. -/
def gacAux (timestamp : PyDateTime) (max_channels : Option ℕ) :
    List (ℕ × ChannelRecord) → ℕ → List ℕ × List (ℕ × ChannelRecord)
  | [], _ => ([], [])
  | (k, r) :: rest, n =>
    if r.needs_check.getD false then
      let r' := { r with needs_check := some false, queued_at := some timestamp }
      if capHit max_channels (n + 1) then ([k], (k, r') :: rest)
      else
        let p := gacAux timestamp max_channels rest (n + 1)
        (k :: p.1, (k, r') :: p.2)
    else
      let p := gacAux timestamp max_channels rest n
      (p.1, (k, r) :: p.2)

/-- `ChannelUpdateTracker.get_and_clear_channels_needing_check`. -/
def get_and_clear_channels_needing_check (t : TrackerState)
    (max_channels : Option ℕ) (timestamp : PyDateTime) : List ℕ × TrackerState :=
  let p := gacAux timestamp max_channels t.channels 0
  (p.1, { t with channels := p.2 })

/-- `ChannelUpdateTracker.mark_global_check` (the timestamp defaults to the
current time at the call site). -/
def mark_global_check (t : TrackerState) (timestamp : PyDateTime) : TrackerState :=
  { t with last_global_check := some timestamp }

/-- `ChannelUpdateTracker.should_force_check`. -/
def should_force_check (t : TrackerState) (channel_id : ℕ) : Bool :=
  match getRecord t.channels channel_id with
  | some r => r.force_check.getD false
  | none => false

/-! ## `StreamCheckerService._check_global_schedule`.  The configuration
keys it reads are gathered in one structure; the method is a function of
the tracker state and the current time, returning whether the global action
was initiated together with the updated tracker. -/

structure ScheduleConfig where
  enabled : Bool
  pipeline_mode : String
  hour : ℕ
  minute : ℕ
  frequency : String
  day_of_month : ℕ
deriving DecidableEq, Repr

/-- `pipeline_mode in ['pipeline_1_5', 'pipeline_2_5', 'pipeline_3']`. -/
def pipelineHasGlobal (mode : String) : Bool :=
  mode = "pipeline_1_5" ∨ mode = "pipeline_2_5" ∨ mode = "pipeline_3"

/-- `StreamCheckerService._check_global_schedule`.  `_perform_global_action`
is abstracted to the returned Boolean (it touches only external systems and
the queue); `mark_global_check` runs right after it with the current
time. -/
def check_global_schedule (cfg : ScheduleConfig) (t : TrackerState)
    (now : PyDateTime) : Bool × TrackerState :=
  if !cfg.enabled then (false, t)
  else if !pipelineHasGlobal cfg.pipeline_mode then (false, t)
  else
    let scheduled_time_today := dtReplaceTime now cfg.hour cfg.minute
    match t.last_global_check with
    | none =>
      if (diffSeconds now scheduled_time_today).natAbs ≤ 600 then
        (true, mark_global_check t now)
      else (false, t)
    | some last =>
      let should_run : Bool :=
        if cfg.frequency = "monthly" then
          decide (now.day = cfg.day_of_month) &&
            (decide (¬ last.month = now.month) || decide (¬ last.year = now.year) ||
              decide (30 ≤ (diffSeconds now last).fdiv 86400))
        else
          !sameDate last now
      if should_run && decide (dtToSeconds scheduled_time_today ≤ dtToSeconds now) then
        (true, mark_global_check t now)
      else (false, t)

/-! ## `StreamCheckQueue`.  The `queue.Queue` buffer is a FIFO list of
(priority, channel id) pairs — `queue.Queue` ignores the priority — and the
three bookkeeping sets are finite sets; the `stats` dict and the per-channel
error strings are irrelevant to the claims and the failed dict is kept as
its key list. -/

structure QueueState where
  buffer : List (ℤ × ℕ)
  queued : Finset ℕ
  in_progress : Finset ℕ
  completed : Finset ℕ
  failed : List ℕ
  max_size : ℕ

/-- `queue.Full` for a non-blocking put: raised when 0 < maxsize ≤ qsize. -/
def queueFull (s : QueueState) : Bool :=
  decide (0 < s.max_size) && decide (s.max_size ≤ s.buffer.length)

/-- `StreamCheckQueue.add_channel`. -/
def add_channel (s : QueueState) (channel_id : ℕ) (priority : ℤ) : Bool × QueueState :=
  if channel_id ∉ s.queued ∧ channel_id ∉ s.in_progress ∧ channel_id ∉ s.completed then
    if queueFull s then (false, s)
    else
      (true,
        { s with buffer := s.buffer ++ [(priority, channel_id)]
                 queued := insert channel_id s.queued })
  else (false, s)

/-- `StreamCheckQueue.add_channels`. -/
def add_channels (s : QueueState) (channel_ids : List ℕ) (priority : ℤ) : ℕ × QueueState :=
  channel_ids.foldl
    (fun acc cid =>
      let r := add_channel acc.2 cid priority
      (acc.1 + (if r.1 then 1 else 0), r.2))
    (0, s)

/-- `StreamCheckQueue.get_next_channel`: a FIFO pop (empty buffer models the
timeout), moving the channel from queued to in-progress. -/
def get_next_channel (s : QueueState) : Option ℕ × QueueState :=
  match s.buffer with
  | [] => (none, s)
  | (_, cid) :: rest =>
    (some cid,
      { s with buffer := rest
               queued := s.queued.erase cid
               in_progress := insert cid s.in_progress })

/-- `StreamCheckQueue.mark_completed`: the in-progress removal is guarded,
the completed insertion is not. -/
def mark_completed (s : QueueState) (channel_id : ℕ) : QueueState :=
  { s with in_progress := s.in_progress.erase channel_id
           completed := insert channel_id s.completed }

/-- `StreamCheckQueue.mark_failed`. -/
def mark_failed (s : QueueState) (channel_id : ℕ) : QueueState :=
  { s with in_progress := s.in_progress.erase channel_id
           failed := channel_id :: s.failed }

/-- `StreamCheckQueue.remove_from_completed`. -/
def remove_from_completed (s : QueueState) (channel_id : ℕ) : QueueState :=
  { s with completed := s.completed.erase channel_id }

/-- The operations of claim C2, as an action language over the queue. -/
inductive QOp where
  | add (channel_id : ℕ) (priority : ℤ)
  | addMany (channel_ids : List ℕ) (priority : ℤ)
  | next
  | complete (channel_id : ℕ)
  | fail (channel_id : ℕ)
  | removeCompleted (channel_id : ℕ)

def applyOp (s : QueueState) : QOp → QueueState
  | QOp.add cid p => (add_channel s cid p).2
  | QOp.addMany cids p => (add_channels s cids p).2
  | QOp.next => (get_next_channel s).2
  | QOp.complete cid => mark_completed s cid
  | QOp.fail cid => mark_failed s cid
  | QOp.removeCompleted cid => remove_from_completed s cid

def runOps (s : QueueState) (ops : List QOp) : QueueState :=
  ops.foldl applyOp s

/-- `StreamCheckQueue.__init__`. -/
def initQueue (max_size : ℕ) : QueueState :=
  { buffer := [], queued := ∅, in_progress := ∅, completed := ∅, failed := [], max_size := max_size }

/-- The worker protocol: `mark_completed` is only invoked on the channel
the worker previously moved to in-progress.  No other operation needs a
restriction — in particular `mark_failed` only removes from in-progress
and records the error, so it preserves exclusivity unconditionally. -/
def opOkB (s : QueueState) : QOp → Bool
  | QOp.complete cid => decide (cid ∈ s.in_progress)
  | _ => true

def protocolOkB : QueueState → List QOp → Bool
  | _, [] => true
  | s, op :: rest => opOkB s op && protocolOkB (applyOp s op) rest

/-- The exclusivity invariant of claim C2 together with the auxiliary facts
needed to preserve it: the three sets are pairwise disjoint, the buffered
ids are distinct, and every buffered id is in the queued set. -/
def QInv (s : QueueState) : Prop :=
  (∀ cid ∈ s.queued, cid ∉ s.in_progress ∧ cid ∉ s.completed) ∧
  (∀ cid ∈ s.in_progress, cid ∉ s.completed) ∧
  (s.buffer.map Prod.snd).Nodup ∧
  (∀ cid ∈ s.buffer.map Prod.snd, cid ∈ s.queued)

/-! ## The per-channel check (`StreamCheckerService._check_channel`),
restricted to the data path that decides the written stream order.  The
external collaborators are oracles: `analyze` is
`_analyze_stream_task` (+ `_update_stream_stats`), `cachedStats` is the
`stream_stats` blob returned by the API for an already-checked stream
(`none` when the fetch fails, which falls back to analysis). -/

/-- The fields of a persisted `stream_stats` blob that the cached-stream
reconstruction reads (each key may be absent). -/
structure StoredStats where
  resolution : Option String
  source_fps : Option ℚ
  video_codec : Option String
  ffmpeg_output_bitrate : Option ℚ
deriving DecidableEq, Repr

/-- The analyzed-format dict `_check_channel` rebuilds for an
already-checked stream: defaults "0x0" / 0 / "N/A", status assumed OK, and
no error/interlace/frame keys at all (so the scorer reads its defaults). -/
def reconstructCached (st : StoredStats) : StreamData :=
  { bitrate_kbps := some (st.ffmpeg_output_bitrate.getD 0)
    resolution := st.resolution.getD "0x0"
    fps := some (st.source_fps.getD 0)
    video_codec := st.video_codec.getD "N/A"
    status := "OK"
    err_decode := false
    err_discontinuity := false
    err_timeout := false
    interlaced_status := "N/A"
    frames_dropped := some 0
    frames_decoded := some 0 }

/-- One entry of `analyzed_streams`: the stream id with its analyzed data
and the score attached by `_calculate_stream_score`. -/
structure AnalyzedStream where
  stream_id : ℕ
  data : StreamData
  score : ℚ
deriving DecidableEq, Repr

def mkAnalyzed (cfg : ScoreConfig) (stream_id : ℕ) (d : StreamData) : AnalyzedStream :=
  { stream_id := stream_id, data := d, score := calculate_stream_score cfg d }

/-- The cached-stream branch: reuse the persisted stats when the fetch
succeeds, otherwise analyze the stream after all.  The fallback models the
value the `_analyze_stream_task` call would produce; as actually invoked
from `_check_channel` that call raises `TypeError` (it passes a
`user_agent` keyword the sorter's signature does not accept), which aborts
the whole check — executions taking this branch never complete, and
`check_channel_write` below models that faithfully. -/
def analyzeCachedStream (cfg : ScoreConfig) (analyze : ℕ → StreamData)
    (cachedStats : ℕ → Option StoredStats) (stream_id : ℕ) : AnalyzedStream :=
  match cachedStats stream_id with
  | some st => mkAnalyzed cfg stream_id (reconstructCached st)
  | none => mkAnalyzed cfg stream_id (analyze stream_id)

/-- `analyzed_streams` as built by `_check_channel` before the sort: the
new/unchecked streams (all of them under a force check) in fetched order,
followed by the already-checked streams in fetched order.  The `analyze`
oracle stands for the result of `_analyze_stream_task`; in the source that
call raises `TypeError` (`user_agent` keyword), so executions needing it
fail without writing — this list over-approximates the completing
executions, on which it coincides with the code (all streams cached). -/
def analysisList (cfg : ScoreConfig) (force_check : Bool) (checked_stream_ids : List ℕ)
    (streams : List ℕ) (analyze : ℕ → StreamData)
    (cachedStats : ℕ → Option StoredStats) : List AnalyzedStream :=
  let streams_to_check :=
    if force_check then streams
    else streams.filter (fun i => !(checked_stream_ids.contains i))
  let streams_already_checked :=
    if force_check then []
    else streams.filter (fun i => checked_stream_ids.contains i)
  streams_to_check.map (fun i => mkAnalyzed cfg i (analyze i))
    ++ streams_already_checked.map (analyzeCachedStream cfg analyze cachedStats)

/-- `analyzed_streams.sort(key=lambda x: x.get('score', 0), reverse=True)`:
Python's sort is stable, and with `reverse=True` equal keys still keep
their original relative order; the unique such output is produced by
insertion sort with the non-strict descending comparison. -/
def insertByScore (a : AnalyzedStream) : List AnalyzedStream → List AnalyzedStream
  | [] => [a]
  | b :: l => if b.score ≤ a.score then a :: b :: l else b :: insertByScore a l

def sortByScoreDesc : List AnalyzedStream → List AnalyzedStream
  | [] => []
  | a :: l => insertByScore a (sortByScoreDesc l)

/-- `reordered_ids`, the list `_check_channel` passes to
`update_channel_streams`. -/
def check_channel_order (cfg : ScoreConfig) (force_check : Bool)
    (checked_stream_ids : List ℕ) (streams : List ℕ) (analyze : ℕ → StreamData)
    (cachedStats : ℕ → Option StoredStats) : List ℕ :=
  (sortByScoreDesc (analysisList cfg force_check checked_stream_ids streams analyze cachedStats)).map
    (fun a => a.stream_id)

/-! ## Tracker lemmas -/

theorem gacAux_none_ids (ts : PyDateTime) :
    ∀ (l : List (ℕ × ChannelRecord)) (n : ℕ),
      (gacAux ts none l n).1
        = (l.filter (fun p => p.2.needs_check.getD false)).map Prod.fst := by
  intro l
  induction l with
  | nil => intro n; rfl
  | cons hd tl ih =>
    intro n
    obtain ⟨k, r⟩ := hd
    by_cases h : r.needs_check.getD false
    · simp [gacAux, h, capHit, ih]
    · simp [gacAux, h, ih]

theorem gacAux_none_cleared (ts : PyDateTime) :
    ∀ (l : List (ℕ × ChannelRecord)) (n : ℕ) (p : ℕ × ChannelRecord),
      p ∈ (gacAux ts none l n).2 → p.2.needs_check.getD false = false := by
  intro l
  induction l with
  | nil => intro n p hp; simp [gacAux] at hp
  | cons hd tl ih =>
    intro n p hp
    obtain ⟨k, r⟩ := hd
    by_cases h : r.needs_check.getD false
    · simp [gacAux, h, capHit] at hp
      rcases hp with hp | hp
      · rw [hp]
        rfl
      · exact ih (n + 1) p hp
    · simp [gacAux, h] at hp
      rcases hp with hp | hp
      · rw [hp]; simpa using h
      · exact ih n p hp

theorem getRecord_setRecord_self (l : List (ℕ × ChannelRecord)) (k : ℕ) (r : ChannelRecord) :
    getRecord (setRecord l k r) k = some r := by
  induction l with
  | nil => simp [setRecord, getRecord]
  | cons hd tl ih =>
    obtain ⟨k', r'⟩ := hd
    by_cases h : k' = k
    · simp [setRecord, h, getRecord]
    · simp [setRecord, h, getRecord, ih]

theorem getRecord_setRecord_ne (l : List (ℕ × ChannelRecord)) (k k' : ℕ) (r : ChannelRecord)
    (h : ¬ k = k') : getRecord (setRecord l k r) k' = getRecord l k' := by
  induction l with
  | nil => simp [setRecord, getRecord, h]
  | cons hd tl ih =>
    obtain ⟨k'', r''⟩ := hd
    by_cases h2 : k'' = k
    · subst h2; simp [setRecord, getRecord, h]
    · simp [setRecord, h2, getRecord, ih]

theorem updatedRecord_stable (old : Option ChannelRecord) (ts : PyDateTime) (sc : Option ℕ) :
    updatedRecord (some (updatedRecord old ts sc)) ts sc = updatedRecord old ts sc := by
  simp [updatedRecord]

theorem getRecord_mark_channel_updated_self (t : TrackerState) (cid : ℕ) (ts : PyDateTime)
    (sc : Option ℕ) :
    getRecord (mark_channel_updated t cid ts sc).channels cid
      = some (updatedRecord (getRecord t.channels cid) ts sc) := by
  simp [mark_channel_updated]
  exact getRecord_setRecord_self t.channels cid _

theorem getRecord_mark_channel_updated_ne (t : TrackerState) (j cid : ℕ) (ts : PyDateTime)
    (sc : Option ℕ) (h : ¬ j = cid) :
    getRecord (mark_channel_updated t j ts sc).channels cid = getRecord t.channels cid := by
  simp [mark_channel_updated]
  exact getRecord_setRecord_ne t.channels j cid _ h

theorem mcu_cons (t : TrackerState) (j : ℕ) (rest : List ℕ) (ts : PyDateTime)
    (counts : List (ℕ × ℕ)) :
    mark_channels_updated t (j :: rest) ts counts
      = mark_channels_updated (mark_channel_updated t j ts (lookupCount counts j)) rest ts counts := rfl

theorem mcu_nil (t : TrackerState) (ts : PyDateTime) (counts : List (ℕ × ℕ)) :
    mark_channels_updated t [] ts counts = t := rfl

theorem mcu_pres (ts : PyDateTime) (counts : List (ℕ × ℕ)) :
    ∀ (ids : List ℕ) (t : TrackerState) (cid : ℕ) (old : Option ChannelRecord),
      getRecord t.channels cid = some (updatedRecord old ts (lookupCount counts cid)) →
      getRecord (mark_channels_updated t ids ts counts).channels cid
        = some (updatedRecord old ts (lookupCount counts cid)) := by
  intro ids
  induction ids with
  | nil => intro t cid old h; rw [mcu_nil]; exact h
  | cons j rest ih =>
    intro t cid old h
    rw [mcu_cons]
    by_cases hj : j = cid
    · subst hj
      apply ih
      rw [getRecord_mark_channel_updated_self, h, updatedRecord_stable]
    · apply ih
      rw [getRecord_mark_channel_updated_ne t j cid ts _ hj]
      exact h

theorem mcu_getRecord (ts : PyDateTime) (counts : List (ℕ × ℕ)) :
    ∀ (ids : List ℕ) (t : TrackerState) (cid : ℕ), cid ∈ ids →
      getRecord (mark_channels_updated t ids ts counts).channels cid
        = some (updatedRecord (getRecord t.channels cid) ts (lookupCount counts cid)) := by
  intro ids
  induction ids with
  | nil => intro t cid h; cases h
  | cons j rest ih =>
    intro t cid hmem
    rw [mcu_cons]
    by_cases hj : j = cid
    · subst hj
      apply mcu_pres ts counts rest
      rw [getRecord_mark_channel_updated_self]
    · have hr : cid ∈ rest := by
        rcases List.mem_cons.mp hmem with h | h
        · exact absurd h.symm hj
        · exact h
      have := ih (mark_channel_updated t j ts (lookupCount counts j)) cid hr
      rwa [getRecord_mark_channel_updated_ne t j cid ts _ hj] at this

/-- C1: Atomic get-and-clear.  With no cap,
`get_and_clear_channels_needing_check` returns exactly the channel ids
whose `needs_check` flag is truthy (in tracker order), every record of the
resulting tracker has the flag cleared, and an immediately following call
with no intervening marking returns the empty list. -/
theorem c1_get_and_clear_atomic (t : TrackerState) (ts ts2 : PyDateTime) :
    ((get_and_clear_channels_needing_check t none ts).1
        = (t.channels.filter (fun p => p.2.needs_check.getD false)).map Prod.fst)
    ∧ (∀ p ∈ (get_and_clear_channels_needing_check t none ts).2.channels,
        p.2.needs_check.getD false = false)
    ∧ (get_and_clear_channels_needing_check
        (get_and_clear_channels_needing_check t none ts).2 none ts2).1 = [] := by
  refine ⟨gacAux_none_ids ts t.channels 0, ?_, ?_⟩
  · intro p hp
    exact gacAux_none_cleared ts t.channels 0 p hp
  · have h1 : (get_and_clear_channels_needing_check
          (get_and_clear_channels_needing_check t none ts).2 none ts2).1
        = ((get_and_clear_channels_needing_check t none ts).2.channels.filter
            (fun p => p.2.needs_check.getD false)).map Prod.fst :=
      gacAux_none_ids ts2 _ 0
    have hclear : ∀ p ∈ (get_and_clear_channels_needing_check t none ts).2.channels,
        p.2.needs_check.getD false = false := by
      intro p hp
      exact gacAux_none_cleared ts t.channels 0 p hp
    rw [h1, List.filter_eq_nil_iff.mpr, List.map_nil]
    intro p hp
    simp [hclear p hp]

/-- C9: `mark_channels_updated` frame property.  Every listed channel's
record afterwards has `needs_check = true`, the given `last_update`
timestamp and the stream count looked up for it, while the previously
stored `checked_stream_ids` list is carried over unchanged (empty when the
channel was untracked). -/
theorem c9_mark_channels_updated_frame (t : TrackerState) (ids : List ℕ)
    (ts : PyDateTime) (counts : List (ℕ × ℕ)) (cid : ℕ) (h : cid ∈ ids) :
    getRecord (mark_channels_updated t ids ts counts).channels cid
      = some { last_update := some ts
               needs_check := some true
               last_check := none
               stream_count := some (lookupCount counts cid)
               checked_stream_ids :=
                 some (((getRecord t.channels cid).bind (fun r => r.checked_stream_ids)).getD [])
               force_check := none
               queued_at := none } := by
  rw [mcu_getRecord ts counts ids t cid h]
  rfl

/-- A concrete tracked record and tracker used by the C9 / C10 witnesses:
channel 7 with `checked_stream_ids = [3, 4]`, a recorded `last_check`, and
`force_check = true`. -/
def exampleRecord : ChannelRecord :=
  { needs_check := some false
    last_check := some ⟨2025, 1, 1, 0, 0, 0⟩
    checked_stream_ids := some [3, 4]
    force_check := some true }

def exampleTracker : TrackerState := ⟨[(7, exampleRecord)], none⟩

def exampleStamp : PyDateTime := ⟨2025, 1, 2, 3, 4, 5⟩

/-- C9 witness: marking channel 7 of the example tracker with stream count
2 rewrites its record as stated. -/
theorem c9_mark_channels_updated_frame_witness :
    getRecord (mark_channels_updated exampleTracker [7] exampleStamp [(7, 2)]).channels 7
      = some { last_update := some exampleStamp
               needs_check := some true
               last_check := none
               stream_count := some (lookupCount [(7, 2)] 7)
               checked_stream_ids :=
                 some (((getRecord exampleTracker.channels 7).bind
                   (fun r => r.checked_stream_ids)).getD [])
               force_check := none
               queued_at := none } :=
  c9_mark_channels_updated_frame exampleTracker [7] exampleStamp [(7, 2)] 7 (by decide)

/-- C10: marking a channel updated replaces its whole record, so a
previously set `force_check` flag and a previously recorded `last_check`
timestamp are removed, by both the single- and the multi-channel marking
operations; `should_force_check` consequently answers false. -/
theorem c10_mark_updated_replaces_record (t : TrackerState) (cid : ℕ) (ts : PyDateTime)
    (sc : Option ℕ) (ids : List ℕ) (counts : List (ℕ × ℕ)) (h : cid ∈ ids) :
    ((getRecord (mark_channel_updated t cid ts sc).channels cid).map
        (fun r => (r.force_check, r.last_check)) = some (none, none)
      ∧ should_force_check (mark_channel_updated t cid ts sc) cid = false)
    ∧ ((getRecord (mark_channels_updated t ids ts counts).channels cid).map
        (fun r => (r.force_check, r.last_check)) = some (none, none)
      ∧ should_force_check (mark_channels_updated t ids ts counts) cid = false) := by
  constructor
  · constructor
    · rw [getRecord_mark_channel_updated_self]
      rfl
    · rw [should_force_check, getRecord_mark_channel_updated_self]
      rfl
  · constructor
    · rw [mcu_getRecord ts counts ids t cid h]
      rfl
    · rw [should_force_check, mcu_getRecord ts counts ids t cid h]
      rfl

/-- C10 witness: channel 7 of the example tracker (which has
`force_check = true` and a recorded `last_check`) loses both through either
marking operation. -/
theorem c10_mark_updated_replaces_record_witness :
    ((getRecord (mark_channel_updated exampleTracker 7 exampleStamp (some 9)).channels 7).map
        (fun r => (r.force_check, r.last_check)) = some (none, none)
      ∧ should_force_check (mark_channel_updated exampleTracker 7 exampleStamp (some 9)) 7 = false)
    ∧ ((getRecord (mark_channels_updated exampleTracker [7] exampleStamp []).channels 7).map
        (fun r => (r.force_check, r.last_check)) = some (none, none)
      ∧ should_force_check (mark_channels_updated exampleTracker [7] exampleStamp []) 7 = false) :=
  c10_mark_updated_replaces_record exampleTracker 7 exampleStamp (some 9) [7] [] (by decide)

/-! ## Global-schedule claims -/

/-- C5: no duplicate global-action stacking.  With the schedule enabled,
a pipeline mode that has scheduled global actions, daily frequency, a last
global check recorded on an earlier date, and five successive invocation
times on one common date at or after the scheduled time, only the first of
five chained `_check_global_schedule` invocations performs the global
action: it records its timestamp, which makes the remaining four
invocations observe a same-day last check and do nothing. -/
theorem c5_no_duplicate_global_action (cfg : ScheduleConfig) (t : TrackerState)
    (last n1 n2 n3 n4 n5 : PyDateTime)
    (hen : cfg.enabled = true)
    (hmode : pipelineHasGlobal cfg.pipeline_mode = true)
    (hfreq : cfg.frequency = "daily")
    (hlast : t.last_global_check = some last)
    (hold : sameDate last n1 = false)
    (hsched : dtToSeconds (dtReplaceTime n1 cfg.hour cfg.minute) ≤ dtToSeconds n1)
    (h12 : sameDate n1 n2 = true) (h13 : sameDate n1 n3 = true)
    (h14 : sameDate n1 n4 = true) (h15 : sameDate n1 n5 = true) :
    (check_global_schedule cfg t n1).1 = true
    ∧ (check_global_schedule cfg t n1).2.last_global_check = some n1
    ∧ (check_global_schedule cfg (check_global_schedule cfg t n1).2 n2).1 = false
    ∧ (check_global_schedule cfg (check_global_schedule cfg t n1).2 n3).1 = false
    ∧ (check_global_schedule cfg (check_global_schedule cfg t n1).2 n4).1 = false
    ∧ (check_global_schedule cfg (check_global_schedule cfg t n1).2 n5).1 = false := by
  have hfirst : check_global_schedule cfg t n1 = (true, mark_global_check t n1) := by
    rw [check_global_schedule, hen, hmode]
    simp only [Bool.not_true, Bool.false_eq_true, if_false, hlast]
    rw [hfreq]
    simp [hold, hsched]
  have hrest : ∀ n : PyDateTime, sameDate n1 n = true →
      (check_global_schedule cfg (check_global_schedule cfg t n1).2 n).1 = false := by
    intro n hsame
    rw [hfirst]
    rw [check_global_schedule, hen, hmode]
    simp only [Bool.not_true, Bool.false_eq_true, if_false, mark_global_check]
    rw [hfreq]
    simp [hsame]
  exact ⟨by rw [hfirst], by rw [hfirst]; rfl, hrest n2 h12, hrest n3 h13, hrest n4 h14,
    hrest n5 h15⟩

/-- C5 witness: last check on 2025-01-01, five invocations on 2025-01-03
after the 03:00 schedule, with the default daily configuration. -/
theorem c5_no_duplicate_global_action_witness :
    (check_global_schedule ⟨true, "pipeline_1_5", 3, 0, "daily", 1⟩
        ⟨[], some ⟨2025, 1, 1, 3, 0, 0⟩⟩ ⟨2025, 1, 3, 3, 0, 0⟩).1 = true
    ∧ (check_global_schedule ⟨true, "pipeline_1_5", 3, 0, "daily", 1⟩
        ⟨[], some ⟨2025, 1, 1, 3, 0, 0⟩⟩ ⟨2025, 1, 3, 3, 0, 0⟩).2.last_global_check
        = some ⟨2025, 1, 3, 3, 0, 0⟩
    ∧ (check_global_schedule ⟨true, "pipeline_1_5", 3, 0, "daily", 1⟩
        (check_global_schedule ⟨true, "pipeline_1_5", 3, 0, "daily", 1⟩
          ⟨[], some ⟨2025, 1, 1, 3, 0, 0⟩⟩ ⟨2025, 1, 3, 3, 0, 0⟩).2 ⟨2025, 1, 3, 3, 1, 0⟩).1 = false
    ∧ (check_global_schedule ⟨true, "pipeline_1_5", 3, 0, "daily", 1⟩
        (check_global_schedule ⟨true, "pipeline_1_5", 3, 0, "daily", 1⟩
          ⟨[], some ⟨2025, 1, 1, 3, 0, 0⟩⟩ ⟨2025, 1, 3, 3, 0, 0⟩).2 ⟨2025, 1, 3, 3, 2, 0⟩).1 = false
    ∧ (check_global_schedule ⟨true, "pipeline_1_5", 3, 0, "daily", 1⟩
        (check_global_schedule ⟨true, "pipeline_1_5", 3, 0, "daily", 1⟩
          ⟨[], some ⟨2025, 1, 1, 3, 0, 0⟩⟩ ⟨2025, 1, 3, 3, 0, 0⟩).2 ⟨2025, 1, 3, 3, 3, 0⟩).1 = false
    ∧ (check_global_schedule ⟨true, "pipeline_1_5", 3, 0, "daily", 1⟩
        (check_global_schedule ⟨true, "pipeline_1_5", 3, 0, "daily", 1⟩
          ⟨[], some ⟨2025, 1, 1, 3, 0, 0⟩⟩ ⟨2025, 1, 3, 3, 0, 0⟩).2 ⟨2025, 1, 3, 3, 4, 0⟩).1 = false :=
  c5_no_duplicate_global_action ⟨true, "pipeline_1_5", 3, 0, "daily", 1⟩
    ⟨[], some ⟨2025, 1, 1, 3, 0, 0⟩⟩ ⟨2025, 1, 1, 3, 0, 0⟩
    ⟨2025, 1, 3, 3, 0, 0⟩ ⟨2025, 1, 3, 3, 1, 0⟩ ⟨2025, 1, 3, 3, 2, 0⟩
    ⟨2025, 1, 3, 3, 3, 0⟩ ⟨2025, 1, 3, 3, 4, 0⟩
    rfl rfl rfl rfl (by decide) (by decide) (by decide) (by decide) (by decide) (by decide)

/-- C8: fresh-start tolerance window.  With the schedule enabled and an
eligible pipeline mode, when no prior global-check timestamp exists,
`_check_global_schedule` performs the global action exactly when the
current time is within 600 seconds (10 minutes, in either direction) of
today's scheduled hour and minute; inside the window it records the
timestamp, outside it the tracker is left untouched. -/
theorem c8_fresh_start_window (cfg : ScheduleConfig) (t : TrackerState) (now : PyDateTime)
    (hen : cfg.enabled = true)
    (hmode : pipelineHasGlobal cfg.pipeline_mode = true)
    (hfresh : t.last_global_check = none) :
    ((check_global_schedule cfg t now).1 = true
      ↔ (diffSeconds now (dtReplaceTime now cfg.hour cfg.minute)).natAbs ≤ 600)
    ∧ ((diffSeconds now (dtReplaceTime now cfg.hour cfg.minute)).natAbs ≤ 600 →
        (check_global_schedule cfg t now).2.last_global_check = some now)
    ∧ (¬ (diffSeconds now (dtReplaceTime now cfg.hour cfg.minute)).natAbs ≤ 600 →
        (check_global_schedule cfg t now).2 = t) := by
  have hunfold : check_global_schedule cfg t now
      = if (diffSeconds now (dtReplaceTime now cfg.hour cfg.minute)).natAbs ≤ 600 then
          (true, mark_global_check t now)
        else (false, t) := by
    rw [check_global_schedule, hen, hmode]
    simp only [Bool.not_true, Bool.false_eq_true, if_false, hfresh]
  by_cases hwin : (diffSeconds now (dtReplaceTime now cfg.hour cfg.minute)).natAbs ≤ 600
  · rw [hunfold, if_pos hwin]
    exact ⟨⟨fun _ => hwin, fun _ => rfl⟩, fun _ => rfl, fun h => absurd hwin h⟩
  · rw [hunfold, if_neg hwin]
    exact ⟨⟨fun h => absurd h Bool.false_ne_true, fun h => absurd h hwin⟩,
      fun h => absurd h hwin, fun _ => rfl⟩

/-- C8 witness: fresh tracker, schedule 03:00; 03:09:59 is inside the
window (action runs and the timestamp is written), 14:00:00 is outside
(nothing happens). -/
theorem c8_fresh_start_window_witness :
    (((check_global_schedule ⟨true, "pipeline_1_5", 3, 0, "daily", 1⟩ ⟨[], none⟩
          ⟨2025, 6, 1, 3, 9, 59⟩).1 = true
        ↔ (diffSeconds ⟨2025, 6, 1, 3, 9, 59⟩
            (dtReplaceTime ⟨2025, 6, 1, 3, 9, 59⟩ 3 0)).natAbs ≤ 600)
      ∧ ((diffSeconds ⟨2025, 6, 1, 3, 9, 59⟩
            (dtReplaceTime ⟨2025, 6, 1, 3, 9, 59⟩ 3 0)).natAbs ≤ 600 →
          (check_global_schedule ⟨true, "pipeline_1_5", 3, 0, "daily", 1⟩ ⟨[], none⟩
            ⟨2025, 6, 1, 3, 9, 59⟩).2.last_global_check = some ⟨2025, 6, 1, 3, 9, 59⟩)
      ∧ (¬ (diffSeconds ⟨2025, 6, 1, 3, 9, 59⟩
            (dtReplaceTime ⟨2025, 6, 1, 3, 9, 59⟩ 3 0)).natAbs ≤ 600 →
          (check_global_schedule ⟨true, "pipeline_1_5", 3, 0, "daily", 1⟩ ⟨[], none⟩
            ⟨2025, 6, 1, 3, 9, 59⟩).2 = ⟨[], none⟩))
    ∧ (((check_global_schedule ⟨true, "pipeline_1_5", 3, 0, "daily", 1⟩ ⟨[], none⟩
          ⟨2025, 6, 1, 14, 0, 0⟩).1 = true
        ↔ (diffSeconds ⟨2025, 6, 1, 14, 0, 0⟩
            (dtReplaceTime ⟨2025, 6, 1, 14, 0, 0⟩ 3 0)).natAbs ≤ 600)
      ∧ ((diffSeconds ⟨2025, 6, 1, 14, 0, 0⟩
            (dtReplaceTime ⟨2025, 6, 1, 14, 0, 0⟩ 3 0)).natAbs ≤ 600 →
          (check_global_schedule ⟨true, "pipeline_1_5", 3, 0, "daily", 1⟩ ⟨[], none⟩
            ⟨2025, 6, 1, 14, 0, 0⟩).2.last_global_check = some ⟨2025, 6, 1, 14, 0, 0⟩)
      ∧ (¬ (diffSeconds ⟨2025, 6, 1, 14, 0, 0⟩
            (dtReplaceTime ⟨2025, 6, 1, 14, 0, 0⟩ 3 0)).natAbs ≤ 600 →
          (check_global_schedule ⟨true, "pipeline_1_5", 3, 0, "daily", 1⟩ ⟨[], none⟩
            ⟨2025, 6, 1, 14, 0, 0⟩).2 = ⟨[], none⟩)) :=
  ⟨c8_fresh_start_window ⟨true, "pipeline_1_5", 3, 0, "daily", 1⟩ ⟨[], none⟩
      ⟨2025, 6, 1, 3, 9, 59⟩ rfl rfl rfl,
    c8_fresh_start_window ⟨true, "pipeline_1_5", 3, 0, "daily", 1⟩ ⟨[], none⟩
      ⟨2025, 6, 1, 14, 0, 0⟩ rfl rfl rfl⟩

/-! ## Queue lemmas -/

theorem qinv_add_channel (s : QueueState) (cid : ℕ) (p : ℤ) (hinv : QInv s) :
    QInv (add_channel s cid p).2 := by
  obtain ⟨h1, h2, h3, h4⟩ := hinv
  rw [add_channel]
  by_cases hc : cid ∉ s.queued ∧ cid ∉ s.in_progress ∧ cid ∉ s.completed
  · rw [if_pos hc]
    by_cases hf : queueFull s
    · rw [if_pos hf]
      exact ⟨h1, h2, h3, h4⟩
    · rw [if_neg hf]
      obtain ⟨hq, hi, hco⟩ := hc
      refine ⟨?_, h2, ?_, ?_⟩
      · intro x hx
        rcases Finset.mem_insert.mp hx with hx | hx
        · subst hx
          exact ⟨hi, hco⟩
        · exact h1 x hx
      · simp only [List.map_append, List.map_cons, List.map_nil]
        apply List.Nodup.append h3 (List.nodup_singleton cid)
        intro x hx hx2
        rw [List.mem_singleton] at hx2
        subst hx2
        exact hq (h4 _ hx)
      · intro x hx
        simp only [List.map_append, List.map_cons, List.map_nil, List.mem_append,
          List.mem_singleton] at hx
        rcases hx with hx | hx
        · exact Finset.mem_insert_of_mem (h4 x hx)
        · subst hx
          exact Finset.mem_insert_self _ _
  · rw [if_neg hc]
    exact ⟨h1, h2, h3, h4⟩

theorem qinv_get_next (s : QueueState) (hinv : QInv s) : QInv (get_next_channel s).2 := by
  obtain ⟨h1, h2, h3, h4⟩ := hinv
  rcases hb : s.buffer with _ | ⟨⟨p, cid⟩, rest⟩
  · have hs : (get_next_channel s).2 = s := by
      simp [get_next_channel, hb]
    rw [hs]
    exact ⟨h1, h2, h3, h4⟩
  · have hcidq : cid ∈ s.queued := h4 cid (by rw [hb]; simp)
    have hnd : cid ∉ rest.map Prod.snd ∧ (rest.map Prod.snd).Nodup := by
      have := h3
      rw [hb] at this
      simpa using this
    have hs : (get_next_channel s).2
        = { s with buffer := rest
                   queued := s.queued.erase cid
                   in_progress := insert cid s.in_progress } := by
      simp [get_next_channel, hb]
    rw [hs]
    refine ⟨?_, ?_, hnd.2, ?_⟩
    · intro x hx
      have hxq := Finset.mem_of_mem_erase hx
      have hxne := Finset.ne_of_mem_erase hx
      constructor
      · intro hmem
        rcases Finset.mem_insert.mp hmem with e | hmem
        · exact hxne e
        · exact (h1 x hxq).1 hmem
      · exact (h1 x hxq).2
    · intro x hx
      rcases Finset.mem_insert.mp hx with e | hx
      · subst e
        exact (h1 x hcidq).2
      · exact h2 x hx
    · intro x hx
      have hxq : x ∈ s.queued := h4 x (by rw [hb]; simp [hx])
      have hxne : x ≠ cid := by
        intro e
        subst e
        exact hnd.1 hx
      exact Finset.mem_erase.mpr ⟨hxne, hxq⟩

theorem qinv_mark_completed (s : QueueState) (cid : ℕ) (hmem : cid ∈ s.in_progress)
    (hinv : QInv s) : QInv (mark_completed s cid) := by
  obtain ⟨h1, h2, h3, h4⟩ := hinv
  have hq : cid ∉ s.queued := fun hc => (h1 cid hc).1 hmem
  refine ⟨?_, ?_, h3, h4⟩
  · intro x hx
    constructor
    · intro hmem2
      exact (h1 x hx).1 (Finset.mem_of_mem_erase hmem2)
    · intro hc
      rcases Finset.mem_insert.mp hc with e | hc
      · subst e
        exact hq hx
      · exact (h1 x hx).2 hc
  · intro x hx
    have hxi := Finset.mem_of_mem_erase hx
    have hxne := Finset.ne_of_mem_erase hx
    intro hc
    rcases Finset.mem_insert.mp hc with e | hc
    · exact hxne e
    · exact h2 x hxi hc

theorem qinv_mark_failed (s : QueueState) (cid : ℕ) (hinv : QInv s) :
    QInv (mark_failed s cid) := by
  obtain ⟨h1, h2, h3, h4⟩ := hinv
  refine ⟨?_, ?_, h3, h4⟩
  · intro x hx
    exact ⟨fun hm => (h1 x hx).1 (Finset.mem_of_mem_erase hm), (h1 x hx).2⟩
  · intro x hx
    exact h2 x (Finset.mem_of_mem_erase hx)

theorem qinv_remove_completed (s : QueueState) (cid : ℕ) (hinv : QInv s) :
    QInv (remove_from_completed s cid) := by
  obtain ⟨h1, h2, h3, h4⟩ := hinv
  refine ⟨?_, ?_, h3, h4⟩
  · intro x hx
    exact ⟨(h1 x hx).1, fun hc => (h1 x hx).2 (Finset.mem_of_mem_erase hc)⟩
  · intro x hx hc
    exact h2 x hx (Finset.mem_of_mem_erase hc)

theorem add_channels_state (p : ℤ) :
    ∀ (ids : List ℕ) (c : ℕ) (st : QueueState),
      (List.foldl (fun acc cid =>
          let r := add_channel acc.2 cid p
          (acc.1 + (if r.1 then 1 else 0), r.2)) (c, st) ids).2
        = (add_channels st ids p).2 := by
  intro ids
  induction ids with
  | nil => intro c st; rfl
  | cons j rest ih =>
    intro c st
    rw [List.foldl_cons]
    exact (ih _ _).trans (ih _ _).symm

theorem qinv_add_channels (ids : List ℕ) (p : ℤ) :
    ∀ (s : QueueState), QInv s → QInv (add_channels s ids p).2 := by
  induction ids with
  | nil => intro s h; exact h
  | cons j rest ih =>
    intro s h
    have heq : (add_channels s (j :: rest) p).2 = (add_channels (add_channel s j p).2 rest p).2 := by
      rw [add_channels, List.foldl_cons]
      exact add_channels_state p rest _ _
    rw [heq]
    exact ih _ (qinv_add_channel s j p h)

theorem qinv_applyOp (s : QueueState) (op : QOp) (hok : opOkB s op = true) (hinv : QInv s) :
    QInv (applyOp s op) := by
  cases op with
  | add cid p => exact qinv_add_channel s cid p hinv
  | addMany cids p => exact qinv_add_channels cids p s hinv
  | next => exact qinv_get_next s hinv
  | complete cid =>
    have hmem : cid ∈ s.in_progress := by simpa [opOkB] using hok
    exact qinv_mark_completed s cid hmem hinv
  | fail cid => exact qinv_mark_failed s cid hinv
  | removeCompleted cid => exact qinv_remove_completed s cid hinv

theorem qinv_runOps : ∀ (ops : List QOp) (s : QueueState),
    protocolOkB s ops = true → QInv s → QInv (runOps s ops) := by
  intro ops
  induction ops with
  | nil => intro s _ hinv; exact hinv
  | cons op rest ih =>
    intro s h hinv
    rw [protocolOkB, Bool.and_eq_true] at h
    exact ih (applyOp s op) h.2 (qinv_applyOp s op h.1 hinv)

theorem qinv_init (m : ℕ) : QInv (initQueue m) := by
  refine ⟨?_, ?_, ?_, ?_⟩ <;> simp [initQueue, QInv]

/-- C2 counterexample: from a fresh queue, `add_channel 5` followed by
`mark_completed 5` (legal calls: `mark_completed`'s in-progress removal is
guarded but its completed insertion is not) leaves channel 5 in both the
queued and the completed set, so the unconditional exclusivity invariant
claimed for arbitrary operation sequences is false. -/
theorem c2_queue_exclusivity_counterexample :
    5 ∈ (runOps (initQueue 1000) [QOp.add 5 0, QOp.complete 5]).queued
    ∧ 5 ∈ (runOps (initQueue 1000) [QOp.add 5 0, QOp.complete 5]).completed := by
  constructor <;> decide

/-- C2 (amended): the exclusivity invariant holds for every operation
sequence in which `mark_completed` is only invoked on a channel that is
currently in progress — which is how the worker loop uses it, completing
exactly the channel it popped.  All the other operations, `mark_failed`
included, need no restriction.  Under that protocol no channel is ever in
more than one of the queued, in-progress and completed sets. -/
theorem c2_amended_queue_exclusivity (max_size : ℕ) (ops : List QOp)
    (h : protocolOkB (initQueue max_size) ops = true) (cid : ℕ) :
    ¬ (cid ∈ (runOps (initQueue max_size) ops).queued
        ∧ cid ∈ (runOps (initQueue max_size) ops).in_progress)
    ∧ ¬ (cid ∈ (runOps (initQueue max_size) ops).queued
        ∧ cid ∈ (runOps (initQueue max_size) ops).completed)
    ∧ ¬ (cid ∈ (runOps (initQueue max_size) ops).in_progress
        ∧ cid ∈ (runOps (initQueue max_size) ops).completed) := by
  have hinv := qinv_runOps ops (initQueue max_size) h (qinv_init max_size)
  obtain ⟨h1, h2, _, _⟩ := hinv
  exact ⟨fun hc => (h1 cid hc.1).1 hc.2, fun hc => (h1 cid hc.1).2 hc.2,
    fun hc => h2 cid hc.1 hc.2⟩

/-- C2 (amended) witness: a full protocol-respecting life cycle of channel
1 — queued, popped, completed, removed from completed, re-queued — plus an
unrestricted `mark_failed` on channel 2, which no protocol condition
limits. -/
theorem c2_amended_queue_exclusivity_witness :
    ¬ (1 ∈ (runOps (initQueue 1000)
          [QOp.add 1 0, QOp.next, QOp.complete 1, QOp.removeCompleted 1, QOp.fail 2,
            QOp.add 1 5]).queued
        ∧ 1 ∈ (runOps (initQueue 1000)
          [QOp.add 1 0, QOp.next, QOp.complete 1, QOp.removeCompleted 1, QOp.fail 2,
            QOp.add 1 5]).in_progress)
    ∧ ¬ (1 ∈ (runOps (initQueue 1000)
          [QOp.add 1 0, QOp.next, QOp.complete 1, QOp.removeCompleted 1, QOp.fail 2,
            QOp.add 1 5]).queued
        ∧ 1 ∈ (runOps (initQueue 1000)
          [QOp.add 1 0, QOp.next, QOp.complete 1, QOp.removeCompleted 1, QOp.fail 2,
            QOp.add 1 5]).completed)
    ∧ ¬ (1 ∈ (runOps (initQueue 1000)
          [QOp.add 1 0, QOp.next, QOp.complete 1, QOp.removeCompleted 1, QOp.fail 2,
            QOp.add 1 5]).in_progress
        ∧ 1 ∈ (runOps (initQueue 1000)
          [QOp.add 1 0, QOp.next, QOp.complete 1, QOp.removeCompleted 1, QOp.fail 2,
            QOp.add 1 5]).completed) :=
  c2_amended_queue_exclusivity 1000
    [QOp.add 1 0, QOp.next, QOp.complete 1, QOp.removeCompleted 1, QOp.fail 2, QOp.add 1 5]
    (by decide) 1

/-! ## Sorting lemmas -/

theorem perm_insertByScore (a : AnalyzedStream) :
    ∀ l : List AnalyzedStream, (insertByScore a l).Perm (a :: l) := by
  intro l
  induction l with
  | nil => exact List.Perm.refl _
  | cons b l ih =>
    by_cases hb : b.score ≤ a.score
    · rw [insertByScore, if_pos hb]
    · rw [insertByScore, if_neg hb]
      exact (List.Perm.cons b ih).trans (List.Perm.swap a b l)

theorem perm_sortByScoreDesc :
    ∀ l : List AnalyzedStream, (sortByScoreDesc l).Perm l := by
  intro l
  induction l with
  | nil => exact List.Perm.refl _
  | cons a l ih =>
    rw [sortByScoreDesc]
    exact (perm_insertByScore a (sortByScoreDesc l)).trans (List.Perm.cons a ih)

theorem pairwise_insertByScore (a : AnalyzedStream) :
    ∀ l : List AnalyzedStream,
      List.Pairwise (fun x y => y.score ≤ x.score) l →
      List.Pairwise (fun x y => y.score ≤ x.score) (insertByScore a l) := by
  intro l
  induction l with
  | nil =>
    intro _
    exact List.pairwise_singleton _ a
  | cons b l ih =>
    intro h
    rcases List.pairwise_cons.mp h with ⟨hb, hl⟩
    by_cases hle : b.score ≤ a.score
    · rw [insertByScore, if_pos hle]
      refine List.pairwise_cons.mpr ⟨?_, h⟩
      intro y hy
      rcases List.mem_cons.mp hy with e | hy
      · subst e
        exact hle
      · exact le_trans (hb y hy) hle
    · rw [insertByScore, if_neg hle]
      refine List.pairwise_cons.mpr ⟨?_, ih hl⟩
      intro y hy
      have hy2 : y ∈ a :: l := (perm_insertByScore a l).mem_iff.mp hy
      rcases List.mem_cons.mp hy2 with e | hy2
      · subst e
        exact le_of_lt (lt_of_not_le hle)
      · exact hb y hy2

theorem sorted_sortByScoreDesc :
    ∀ l : List AnalyzedStream,
      List.Pairwise (fun x y => y.score ≤ x.score) (sortByScoreDesc l) := by
  intro l
  induction l with
  | nil => exact List.Pairwise.nil
  | cons a l ih =>
    rw [sortByScoreDesc]
    exact pairwise_insertByScore a (sortByScoreDesc l) ih

theorem filter_insertByScore_eq (a : AnalyzedStream) :
    ∀ l : List AnalyzedStream,
      (insertByScore a l).filter (fun x => decide (x.score = a.score))
        = a :: l.filter (fun x => decide (x.score = a.score)) := by
  intro l
  induction l with
  | nil => simp [insertByScore]
  | cons b l ih =>
    by_cases hb : b.score ≤ a.score
    · rw [insertByScore, if_pos hb]
      simp [List.filter_cons]
    · rw [insertByScore, if_neg hb]
      have hbne : ¬ b.score = a.score := fun e => hb (le_of_eq e)
      rw [List.filter_cons, List.filter_cons]
      simp only [hbne, decide_eq_true_eq, if_neg, decide_eq_false_iff_not,
        Bool.false_eq_true, if_false]
      exact ih

theorem filter_insertByScore_ne (a : AnalyzedStream) (k : ℚ) (hk : ¬ a.score = k) :
    ∀ l : List AnalyzedStream,
      (insertByScore a l).filter (fun x => decide (x.score = k))
        = l.filter (fun x => decide (x.score = k)) := by
  intro l
  induction l with
  | nil => simp [insertByScore, hk]
  | cons b l ih =>
    by_cases hb : b.score ≤ a.score
    · rw [insertByScore, if_pos hb]
      rw [List.filter_cons, decide_eq_false hk]
      simp
    · rw [insertByScore, if_neg hb]
      rw [List.filter_cons, List.filter_cons]
      by_cases hbk : b.score = k
      · rw [decide_eq_true hbk]
        simp [ih]
      · rw [decide_eq_false hbk]
        simp [ih]

theorem filter_sortByScoreDesc :
    ∀ (l : List AnalyzedStream) (k : ℚ),
      (sortByScoreDesc l).filter (fun x => decide (x.score = k))
        = l.filter (fun x => decide (x.score = k)) := by
  intro l
  induction l with
  | nil => intro k; rfl
  | cons a l ih =>
    intro k
    rw [sortByScoreDesc]
    by_cases hk : a.score = k
    · subst hk
      rw [filter_insertByScore_eq a (sortByScoreDesc l), ih a.score, List.filter_cons]
      simp
    · rw [filter_insertByScore_ne a k hk, ih k, List.filter_cons]
      simp [hk]

theorem stream_id_analyzeCachedStream (cfg : ScoreConfig) (analyze : ℕ → StreamData)
    (cachedStats : ℕ → Option StoredStats) (i : ℕ) :
    (analyzeCachedStream cfg analyze cachedStats i).stream_id = i := by
  cases hc : cachedStats i <;> simp [analyzeCachedStream, hc, mkAnalyzed]

theorem map_id_fun (f : ℕ → ℕ) (h : ∀ x, f x = x) : ∀ l : List ℕ, l.map f = l := by
  intro l
  induction l with
  | nil => rfl
  | cons x xs ih => simp [h x, ih]

theorem analysisList_map_id (cfg : ScoreConfig) (force_check : Bool)
    (checked_stream_ids : List ℕ) (streams : List ℕ) (analyze : ℕ → StreamData)
    (cachedStats : ℕ → Option StoredStats) :
    (analysisList cfg force_check checked_stream_ids streams analyze cachedStats).map
        (fun a => a.stream_id)
      = (if force_check then streams
          else streams.filter (fun i => !(checked_stream_ids.contains i)))
        ++ (if force_check then []
          else streams.filter (fun i => checked_stream_ids.contains i)) := by
  unfold analysisList
  rw [List.map_append, List.map_map, List.map_map]
  rw [map_id_fun ((fun a : AnalyzedStream => a.stream_id) ∘ fun i => mkAnalyzed cfg i (analyze i))
      (fun i => rfl),
    map_id_fun ((fun a : AnalyzedStream => a.stream_id) ∘ analyzeCachedStream cfg analyze cachedStats)
      (fun i => stream_id_analyzeCachedStream cfg analyze cachedStats i)]

/-- C4: reorder permutation.  For every fetched stream list (and any probe
and cache behaviour), the id list `_check_channel` hands to
`update_channel_streams` is a permutation of the fetched stream-id list, in
both the forced and the cache-reusing path. -/
theorem c4_reorder_permutation (cfg : ScoreConfig) (force_check : Bool)
    (checked_stream_ids : List ℕ) (streams : List ℕ) (analyze : ℕ → StreamData)
    (cachedStats : ℕ → Option StoredStats) (_hne : streams ≠ []) :
    (check_channel_order cfg force_check checked_stream_ids streams analyze cachedStats).Perm
      streams := by
  unfold check_channel_order
  have hmap :=
    (perm_sortByScoreDesc
      (analysisList cfg force_check checked_stream_ids streams analyze cachedStats)).map
      (fun a => a.stream_id)
  rw [analysisList_map_id] at hmap
  refine hmap.trans ?_
  cases force_check
  · simp only [Bool.false_eq_true, if_false]
    have hp := List.filter_append_perm (fun i => !(checked_stream_ids.contains i)) streams
    simpa [Bool.not_not] using hp
  · simp

/-- C4 witness: a one-stream channel (nonempty, as the guarded path
requires) reorders to a permutation of its fetched id list. -/
theorem c4_reorder_permutation_witness :
    ([1] : List ℕ) ≠ []
    ∧ (check_channel_order defaultScoreConfig false []
        [1] (fun _ => reconstructCached ⟨none, none, none, none⟩) (fun _ => none)).Perm [1] :=
  ⟨by decide,
    c4_reorder_permutation defaultScoreConfig false [] [1]
      (fun _ => reconstructCached ⟨none, none, none, none⟩) (fun _ => none) (by decide)⟩

/-- An empty persisted stats blob and the analyzed data it reconstructs to
(bitrate 0, resolution "0x0", fps 0, codec "N/A", status OK). -/
def emptyStats : StoredStats := ⟨none, none, none, none⟩

def ceData : StreamData := reconstructCached emptyStats

/-- The analysis list of an execution on which every fetched stream reuses
its cached stats: the fetched streams in fetched order, each scored from
its persisted blob (the `getD` dummy is never read, the callers guard that
every fetch succeeded). -/
def cachedAnalysisList (cfg : ScoreConfig) (streams : List ℕ)
    (cachedStats : ℕ → Option StoredStats) : List AnalyzedStream :=
  streams.map (fun i =>
    mkAnalyzed cfg i (reconstructCached ((cachedStats i).getD ⟨none, none, none, none⟩)))

/-- The id list `_check_channel` actually passes to
`update_channel_streams`, or `none` when the check performs no write.
Every `_analyze_stream_task` call issued by `_check_channel` raises
`TypeError` — the call passes a `user_agent` keyword that the sorter's
`_analyze_stream_task(row, ffmpeg_duration, idet_frames, timeout, retries,
retry_delay, config)` does not accept — so the outer `except` marks the
channel failed and nothing is written whenever an analysis is needed: on an
empty channel (early return), under a force check (all streams analyzed),
when any fetched stream is not in `checked_stream_ids`, or when any
cached-stats fetch fails (fallback analysis).  A write happens exactly on
the remaining path, where `analyzed_streams` is the fetched list scored
from cached stats. -/
def check_channel_write (cfg : ScoreConfig) (force_check : Bool)
    (checked_stream_ids : List ℕ) (streams : List ℕ)
    (cachedStats : ℕ → Option StoredStats) : Option (List ℕ) :=
  if streams.isEmpty then none
  else if force_check then none
  else if streams.any (fun i => !(checked_stream_ids.contains i)) then none
  else if streams.any (fun i => (cachedStats i).isNone) then none
  else
    some ((sortByScoreDesc (cachedAnalysisList cfg streams cachedStats)).map
      (fun a => a.stream_id))

/-- C7: stable sort by score.  On every execution of the per-channel check
that writes an order, the list being sorted is the fetched stream list
itself (each stream scored from its cached stats, new streams having
aborted the check before any write), and the written order is that list
stably sorted by score descending: scores are non-increasing, and for
every score value the equal-scored streams keep their relative order in
the channel's originally fetched stream list (equality of the
score-filtered subsequences). -/
theorem c7_stable_sort_fetched_ties (cfg : ScoreConfig) (force_check : Bool)
    (checked_stream_ids : List ℕ) (streams : List ℕ)
    (cachedStats : ℕ → Option StoredStats) (written : List ℕ)
    (h : check_channel_write cfg force_check checked_stream_ids streams cachedStats
      = some written) :
    written = (sortByScoreDesc (cachedAnalysisList cfg streams cachedStats)).map
        (fun a => a.stream_id)
    ∧ (cachedAnalysisList cfg streams cachedStats).map (fun a => a.stream_id) = streams
    ∧ List.Pairwise (fun x y => y.score ≤ x.score)
        (sortByScoreDesc (cachedAnalysisList cfg streams cachedStats))
    ∧ (∀ k : ℚ,
        (sortByScoreDesc (cachedAnalysisList cfg streams cachedStats)).filter
          (fun a => decide (a.score = k))
        = (cachedAnalysisList cfg streams cachedStats).filter
          (fun a => decide (a.score = k))) := by
  refine ⟨?_, ?_, sorted_sortByScoreDesc _, fun k => filter_sortByScoreDesc _ k⟩
  · rw [check_channel_write] at h
    by_cases h1 : streams.isEmpty = true
    · rw [if_pos h1] at h
      exact Option.noConfusion h
    rw [if_neg h1] at h
    by_cases h2 : force_check = true
    · rw [if_pos h2] at h
      exact Option.noConfusion h
    rw [if_neg h2] at h
    by_cases h3 : streams.any (fun i => !(checked_stream_ids.contains i)) = true
    · rw [if_pos h3] at h
      exact Option.noConfusion h
    rw [if_neg h3] at h
    by_cases h4 : streams.any (fun i => (cachedStats i).isNone) = true
    · rw [if_pos h4] at h
      exact Option.noConfusion h
    rw [if_neg h4] at h
    exact (Option.some.inj h).symm
  · rw [cachedAnalysisList, List.map_map]
    exact map_id_fun _ (fun i => rfl) streams

/-- C7 witness: a two-stream channel whose streams are both already checked
with empty cached stats (hence equal scores): the check writes, and the
written order [1, 2] keeps the fetched tie order. -/
theorem c7_stable_sort_fetched_ties_witness :
    ([1, 2] : List ℕ) = (sortByScoreDesc (cachedAnalysisList defaultScoreConfig [1, 2]
        (fun _ => some emptyStats))).map (fun a => a.stream_id)
    ∧ (cachedAnalysisList defaultScoreConfig [1, 2] (fun _ => some emptyStats)).map
        (fun a => a.stream_id) = [1, 2]
    ∧ List.Pairwise (fun x y => y.score ≤ x.score)
        (sortByScoreDesc (cachedAnalysisList defaultScoreConfig [1, 2]
          (fun _ => some emptyStats)))
    ∧ (∀ k : ℚ,
        (sortByScoreDesc (cachedAnalysisList defaultScoreConfig [1, 2]
            (fun _ => some emptyStats))).filter (fun a => decide (a.score = k))
        = (cachedAnalysisList defaultScoreConfig [1, 2]
            (fun _ => some emptyStats)).filter (fun a => decide (a.score = k))) :=
  c7_stable_sort_fetched_ties defaultScoreConfig false [1, 2] [1, 2]
    (fun _ => some emptyStats) [1, 2] (by
      have hsort : (sortByScoreDesc (cachedAnalysisList defaultScoreConfig [1, 2]
          (fun _ => some emptyStats))).map (fun a => a.stream_id) = [1, 2] := by
        show (sortByScoreDesc [mkAnalyzed defaultScoreConfig 1 (reconstructCached emptyStats),
            mkAnalyzed defaultScoreConfig 2 (reconstructCached emptyStats)]).map
          (fun a => a.stream_id) = [1, 2]
        simp only [sortByScoreDesc, insertByScore, mkAnalyzed]
        rw [if_pos (le_refl _)]
        rfl
      have hw : check_channel_write defaultScoreConfig false [1, 2] [1, 2]
          (fun _ => some emptyStats)
          = some ((sortByScoreDesc (cachedAnalysisList defaultScoreConfig [1, 2]
              (fun _ => some emptyStats))).map (fun a => a.stream_id)) := rfl
      rw [hw, hsort])

/-! ## Scorer claims -/

/-- A probe result with an unusable bitrate ("N/A") but top-quality video:
1080p, 60 fps, HEVC, status OK, no errors. -/
def deadHighQuality : StreamData :=
  { bitrate_kbps := none
    resolution := "1920x1080"
    fps := some 60
    video_codec := "hevc"
    status := "OK"
    err_decode := false
    err_discontinuity := false
    err_timeout := false
    interlaced_status := "progressive"
    frames_dropped := some 0
    frames_decoded := some 0 }

/-- A probe result with a usable bitrate (8000 kbps) but everything else
failed: unknown resolution, no fps, no codec, timeout status, all critical
errors set. -/
def measuredPoor : StreamData :=
  { bitrate_kbps := some 8000
    resolution := "N/A"
    fps := some 0
    video_codec := ""
    status := "Timeout"
    err_decode := true
    err_discontinuity := true
    err_timeout := true
    interlaced_status := "N/A"
    frames_dropped := some 0
    frames_decoded := some 0 }

/-- C3 counterexample: `_calculate_stream_score` applies no dead-stream
sentinel at all.  A stream whose bitrate measurement is unusable scores
0.70 under the default weights, strictly above the 0.30 of a stream with a
perfectly usable bitrate — so the unusable-bitrate stream ranks above a
measured one instead of below all of them. -/
theorem c3_dead_stream_floor_counterexample :
    calculate_stream_score defaultScoreConfig deadHighQuality = 7/10
    ∧ calculate_stream_score defaultScoreConfig measuredPoor = 3/10
    ∧ bitrateUsable deadHighQuality.bitrate_kbps = false
    ∧ bitrateUsable measuredPoor.bitrate_kbps = true
    ∧ (3:ℚ)/10 < 7/10 := by
  refine ⟨?_, ?_, rfl, ?_, by norm_num⟩
  · have herr : error_component defaultScoreConfig deadHighQuality = 1 := by
      simp only [error_component, deadHighQuality, defaultScoreConfig]
      rw [show isInfixCodes (codes "interlaced") (lowerCodes "progressive") = false from rfl]
      norm_num [max_def]
    simp only [calculate_stream_score]
    rw [herr]
    rw [show bitrate_component deadHighQuality.bitrate_kbps = 0 from rfl,
      show resolution_component deadHighQuality.resolution = 1 from rfl,
      show codec_component defaultScoreConfig.prefer_h265 deadHighQuality.video_codec = 1 from rfl,
      show deadHighQuality.fps = some 60 from rfl]
    simp only [defaultScoreConfig]
    norm_num [fps_component, round2, roundHalfToEven]
  · have herr : error_component defaultScoreConfig measuredPoor = 0 := by
      simp only [error_component, measuredPoor, defaultScoreConfig]
      rw [show isInfixCodes (codes "interlaced") (lowerCodes "N/A") = false from rfl]
      norm_num [max_def, (show ¬("Timeout" = "OK") by decide)]
    simp only [calculate_stream_score]
    rw [herr]
    rw [show resolution_component measuredPoor.resolution = 0 from rfl,
      show codec_component defaultScoreConfig.prefer_h265 measuredPoor.video_codec = 0 from rfl,
      show measuredPoor.bitrate_kbps = some 8000 from rfl,
      show measuredPoor.fps = some 0 from rfl]
    simp only [defaultScoreConfig]
    norm_num [bitrate_component, fps_component, round2, roundHalfToEven]
  · simp only [bitrateUsable, measuredPoor]
    norm_num

theorem bitrate_component_eq_zero (b : Option ℚ) (h : bitrateUsable b = false) :
    bitrate_component b = 0 := by
  cases b with
  | none => rfl
  | some q =>
    have hq : ¬ (0 < q) := by simpa [bitrateUsable] using h
    simp [bitrate_component, hq]

/-- C3 (amended): the dead-stream sentinel lives only in the sorter's
`score_streams`: a row whose averaged bitrate is NaN scores exactly −1,
and −1 is strictly below the score of any measured row without error or
dropped-frame penalties — but not below every measured score, since
penalties can push a measured row below −1.  The service's
`_calculate_stream_score` applies no sentinel: an unusable bitrate merely
zeroes the bitrate term, leaving the other four weighted components. -/
theorem c3_amended_sentinel :
    (∀ (pts : ℚ) (r : SorterRow), r.avg_bitrate_kbps = none → sorter_score pts r = -1)
    ∧ (∀ (pts : ℚ) (r : SorterRow) (a m : ℚ),
        r.avg_bitrate_kbps = some a → 0 ≤ a →
        r.max_bitrate_for_channel = some m → a ≤ m →
        r.err_decode = 0 → r.err_discontinuity = 0 → r.err_timeout = 0 →
        sorterDroppedPct r.avg_frames_dropped r.avg_frames_decoded = 0 →
        0 ≤ pts →
        -1 < sorter_score pts r)
    ∧ (∀ (cfg : ScoreConfig) (d : StreamData), bitrateUsable d.bitrate_kbps = false →
        calculate_stream_score cfg d
          = round2 (resolution_component d.resolution * cfg.w_resolution
              + fps_component d.fps * cfg.w_fps
              + codec_component cfg.prefer_h265 d.video_codec * cfg.w_codec
              + error_component cfg d * cfg.w_errors)) := by
  refine ⟨?_, ?_, ?_⟩
  · intro pts r h
    simp [sorter_score, h]
  · intro pts r a m havg h0a hmax ham he1 he2 he3 hdp hpts
    have hB : 0 ≤ sorterBitrateScore r.avg_bitrate_kbps r.max_bitrate_for_channel := by
      rw [havg, hmax, sorterBitrateScore]
      by_cases hm : m = 0
      · rw [if_pos hm]
      · rw [if_neg hm]
        have hmpos : 0 < m := lt_of_le_of_ne (le_trans h0a ham) (Ne.symm hm)
        have hden : 0 ≤ m * (1/100) := by positivity
        exact div_nonneg h0a hden
    have hR : 0 ≤ sorterResolutionScore r.resolution := by
      simp only [sorterResolutionScore]
      split_ifs <;> norm_num
    have hF : 0 ≤ sorterFpsBonus pts r.fps := by
      simp only [sorterFpsBonus]
      split_ifs
      · exact hpts
      · exact le_refl 0
    have hnone : r.avg_bitrate_kbps.isNone = false := by rw [havg]; rfl
    rw [sorter_score, hnone, if_neg Bool.false_ne_true, hdp, he1, he2, he3]
    linarith [hB, hR, hF]
  · intro cfg d h
    rw [calculate_stream_score, bitrate_component_eq_zero _ h]
    congr 1
    ring

/-- A sorter row with NaN averaged bitrate, and its measured twin. -/
def deadRow : SorterRow :=
  ⟨none, some 100, some 0, some 5000, "1920x1080", some 50, 0, 0, 0⟩

def aliveRow : SorterRow :=
  ⟨some 4000, some 100, some 0, some 5000, "1920x1080", some 50, 0, 0, 0⟩

/-- C3 (amended) witness: the NaN-bitrate row gets the −1 sentinel, its
penalty-free measured twin scores above −1, and the unusable-bitrate probe
result is scored by the service without any bitrate contribution. -/
theorem c3_amended_sentinel_witness :
    sorter_score 55 deadRow = -1
    ∧ (-1 : ℚ) < sorter_score 55 aliveRow
    ∧ calculate_stream_score defaultScoreConfig deadHighQuality
      = round2 (resolution_component deadHighQuality.resolution * defaultScoreConfig.w_resolution
          + fps_component deadHighQuality.fps * defaultScoreConfig.w_fps
          + codec_component defaultScoreConfig.prefer_h265 deadHighQuality.video_codec
              * defaultScoreConfig.w_codec
          + error_component defaultScoreConfig deadHighQuality * defaultScoreConfig.w_errors) :=
  ⟨c3_amended_sentinel.1 55 deadRow rfl,
    c3_amended_sentinel.2.1 55 aliveRow 4000 5000 rfl (by norm_num) rfl (by norm_num)
      rfl rfl rfl (by norm_num [sorterDroppedPct, aliveRow]) (by norm_num),
    c3_amended_sentinel.2.2 defaultScoreConfig deadHighQuality rfl⟩

/-- The weight configuration that isolates the resolution component
(resolution weight 1, every other weight 0). -/
def resOnlyConfig : ScoreConfig := ⟨0, 1, 0, 0, 0, true, true, true⟩

/-- C6 counterexample: the dead-stream sentinel resolution "0x0" parses
successfully (height 0) and therefore falls into the `else` branch worth
0.3, not the claimed 0; with the resolution weight isolated the whole
scorer returns 0.3 for such a stream. -/
theorem c6_resolution_component_counterexample :
    resolution_component "0x0" = 3/10
    ∧ calculate_stream_score resOnlyConfig ceData = 3/10
    ∧ ¬ ((3:ℚ)/10 = 0) := by
  refine ⟨rfl, ?_, by norm_num⟩
  have herr : error_component resOnlyConfig ceData = 1 := by
    simp only [error_component, ceData, reconstructCached, emptyStats, resOnlyConfig]
    rw [show isInfixCodes (codes "interlaced") (lowerCodes "N/A") = false from rfl]
    norm_num [max_def]
  simp only [calculate_stream_score]
  rw [herr]
  rw [show resolution_component ceData.resolution = 3/10 from rfl,
    show codec_component resOnlyConfig.prefer_h265 ceData.video_codec = 0 from rfl,
    show ceData.bitrate_kbps = some 0 from rfl,
    show ceData.fps = some 0 from rfl]
  simp only [resOnlyConfig]
  norm_num [bitrate_component, fps_component, round2, roundHalfToEven]

/-- C6 (amended): the unweighted resolution component is the claimed step
function of the parsed vertical resolution — 1.0 at ≥1080, 0.7 at ≥720,
0.5 at ≥576 — but the 0.3 bucket covers every successfully parsed
resolution, including the 0x0 dead-stream sentinel; 0 is assigned exactly
when the string has no 'x' or does not parse as two integers.  With the
resolution weight isolated, `_calculate_stream_score` returns exactly the
rounded component. -/
theorem c6_amended_resolution_step :
    (∀ (s : String) (w h : Int), parseResolution s = some (w, h) →
        resolution_component s
          = (if 1080 ≤ h then 1 else if 720 ≤ h then 7/10 else if 576 ≤ h then 1/2 else 3/10))
    ∧ (∀ s : String, parseResolution s = none → resolution_component s = 0)
    ∧ (∀ d : StreamData, calculate_stream_score resOnlyConfig d
        = round2 (resolution_component d.resolution)) := by
  refine ⟨?_, ?_, ?_⟩
  · intro s w h hp
    rw [resolution_component, hp]
  · intro s hp
    rw [resolution_component, hp]
  · intro d
    rw [calculate_stream_score]
    simp only [resOnlyConfig]
    congr 1
    ring

/-- C6 (amended) witness: "0x0" parses to height 0 and lands in the 0.3
branch, "N/A" does not parse and gets 0, and the isolated-weight scorer
agrees with the rounded component on the empty-cache stream data. -/
theorem c6_amended_resolution_step_witness :
    resolution_component "0x0"
      = (if 1080 ≤ (0:Int) then 1
          else if 720 ≤ (0:Int) then 7/10
          else if 576 ≤ (0:Int) then 1/2
          else 3/10)
    ∧ resolution_component "N/A" = 0
    ∧ calculate_stream_score resOnlyConfig ceData = round2 (resolution_component ceData.resolution) :=
  ⟨c6_amended_resolution_step.1 "0x0" 0 0 (by decide),
    c6_amended_resolution_step.2.1 "N/A" (by decide),
    c6_amended_resolution_step.2.2 ceData⟩
